import Mathlib

/-
Shallow embedding of the QLogger library (src/QLogger/qlogger.h,
src/QLogger/qlogger.cpp): a multi-sink text logger.  Each sink
(QLoggerWriter) owns a file path, a minimum level, a timestamp flag and
format, and a size limit; a process-wide manager (QLoggerManager) maps
channel names to sinks.

Modelling choices, all taken from the source:
* `LogLevel` is the C++ enum's underlying integer (Int), so out-of-range
  values exist, as they do for a C++ enum; the named levels are 0..5.
* The file system is an association list from path to file contents; the
  size of a file is the length of its contents, a missing file has size 0
  (Qt: QFileInfo::size() of a missing file is 0).
* Wall-clock formatting (QDateTime::currentDateTime().toString(fmt)) is an
  uninterpreted rendering function supplied by the environment, applied to
  the format string the code passes; the rotation timestamp
  (toString("ddMMyyyyhhmmss")) is an environment-supplied string.
* qDebug() diagnostics are collected in a list of `Diag` values; the
  QT_DEBUG console echo of the log line is a conditional console print and
  is not an effect on the file system or on any sink.
* QFile::open(Append | Text) may fail; the environment says whether it
  succeeds.  QFile::rename fails (and the code silently ignores it) when
  the source is missing or the destination exists.
-/

set_option autoImplicit false

namespace QLogger

/-- The C++ enum `LogLevel` has underlying type int; values beyond the six
named enumerators are representable, and `levelToString` maps them to
"INVALID". -/
abbrev LogLevel := Int

def TraceLevel : LogLevel := 0

def DebugLevel : LogLevel := 1

def InfoLevel : LogLevel := 2

def WarnLevel : LogLevel := 3

def ErrorLevel : LogLevel := 4

def FatalLevel : LogLevel := 5

/-- `QLoggerWriter::levelToString(level)` (qlogger.cpp:78-91): a switch over
the six named levels, default "INVALID". -/
def levelToString (level : LogLevel) : String :=
  if level = 0 then "trace"
  else if level = 1 then "debug"
  else if level = 2 then "info"
  else if level = 3 then "warning"
  else if level = 4 then "error"
  else if level = 5 then "fatal"
  else "INVALID"

/-- The private state of `QLoggerWriter` (qlogger.h:179-187). -/
structure Writer where
  m_filePath : String
  m_fileSizeLimit : Int
  m_saveDatetime : Bool
  m_datetimeFormat : String
  m_level : LogLevel
  deriving DecidableEq

/-- The `DATE_FORMAT` macro (qlogger.cpp:9). -/
def DATE_FORMAT : String := "yyyy-MM-dd-hh-mm-ss"

/-- The default constructor `QLoggerWriter(parent)` (qlogger.cpp:54-60) sets
sizeLimit 0, saveDatetime true, datetimeFormat DATE_FORMAT, level Debug,
and leaves the path default-constructed (empty). -/
def writerDefault : Writer :=
  ⟨"", 0, true, DATE_FORMAT, DebugLevel⟩

/-- The two-argument constructor `QLoggerWriter(filePath, level, parent)`
(qlogger.cpp:62-66): delegates to the default constructor, then overrides
level and path. -/
def mkWriter (filePath : String) (level : LogLevel) : Writer :=
  ⟨filePath, 0, true, DATE_FORMAT, level⟩

/-- The qDebug() diagnostics emitted by the code, one constructor per
message site (the message texts in the source are fixed French strings
with the channel name or path substituted for %1). -/
inductive Diag where
  | emptyFilePath
  | openFailure (path : String) (err : String)
  | alreadyExists (name : String)
  | notRegistered (name : String)
  deriving DecidableEq

/-- File system model: association list from path to file contents. -/
abbrev FS := List (String × String)

def fsRead : FS → String → Option String
  | [], _ => none
  | (q, d) :: rest, p => if q = p then some d else fsRead rest p

def fsWrite : FS → String → String → FS
  | [], p, c => [(p, c)]
  | (q, d) :: rest, p, c => if q = p then (p, c) :: rest else (q, d) :: fsWrite rest p c

def fsRemove : FS → String → FS
  | [], _ => []
  | (q, d) :: rest, p => if q = p then fsRemove rest p else (q, d) :: fsRemove rest p

/-- QFileInfo::size(): contents length; 0 when the file is missing. -/
def fsSize (fs : FS) (p : String) : Int :=
  (((fsRead fs p).getD "").length : Int)

/-- QFile::rename(dst): succeeds only when the source exists and the
destination does not; on failure the file system is unchanged (the code
ignores the returned bool). -/
def fsRename (fs : FS) (src dst : String) : FS :=
  match fsRead fs src with
  | none => fs
  | some c =>
    match fsRead fs dst with
    | some _ => fs
    | none => fsWrite (fsRemove fs src) dst c

/-- Split a character list at every occurrence of `sep` (structural version
of QString::split on one character; always returns a nonempty list). -/
def splitOnChar (sep : Char) : List Char → List (List Char)
  | [] => [[]]
  | c :: rest =>
    let r := splitOnChar sep rest
    if c = sep then [] :: r
    else
      match r with
      | [] => [[c]]
      | h :: t => (c :: h) :: t

def joinWithChar (sep : Char) : List (List Char) → List Char
  | [] => []
  | [x] => x
  | x :: rest => x ++ sep :: joinWithChar sep rest

/-- QFileInfo::fileName(): the part of the path after the last '/'. -/
def qtFileName (p : String) : String :=
  String.mk ((splitOnChar '/' p.toList).getLastD [])

/-- QFileInfo::baseName(): the file name up to (not including) the FIRST
'.' character. -/
def qtBaseName (p : String) : String :=
  String.mk ((splitOnChar '.' (qtFileName p).toList).headD [])

/-- QFileInfo::completeSuffix(): everything in the file name after (not
including) the FIRST '.' character; empty when there is no dot. -/
def qtCompleteSuffix (p : String) : String :=
  String.mk (joinWithChar '.' ((splitOnChar '.' (qtFileName p).toList).tail))

/-- The directory part of a path (QFileInfo::absoluteDir, modelled on the
path as given): everything before the last '/', empty when there is none. -/
def qtDirOf (p : String) : String :=
  String.mk (joinWithChar '/' ((splitOnChar '/' p.toList).dropLast))

/-- absoluteDir().absoluteFilePath(fname): the sibling path of `p` with file
name `fname`. -/
def inSameDir (p : String) (fname : String) : String :=
  if qtDirOf p = "" then fname else qtDirOf p ++ "/" ++ fname

/-- The rotated file name the code builds (qlogger.cpp:130-132):
baseName + a single underscore + the "ddMMyyyyhhmmss" timestamp + a dot +
completeSuffix — a split of the original file name at its FIRST dot. -/
def rotatedFileName (p : String) (rotStamp : String) : String :=
  qtBaseName p ++ "_" ++ rotStamp ++ "." ++ qtCompleteSuffix p

/-- `QLoggerWriter::checkFileSizeLimit()` (qlogger.cpp:115-136): no-op when
the limit is <= 0; otherwise, when the file's size has reached the limit,
rename it, in its own directory, to the rotated name. -/
def checkFileSizeLimit (w : Writer) (fs : FS) (rotStamp : String) : FS :=
  if w.m_fileSizeLimit ≤ 0 then fs
  else if fsSize fs w.m_filePath ≥ w.m_fileSizeLimit then
    fsRename fs w.m_filePath (inSameDir w.m_filePath (rotatedFileName w.m_filePath rotStamp))
  else fs

/-- Environment of a write: the wall-clock rendering function (what
QDateTime::currentDateTime().toString returns for a given format string),
the already-rendered "ddMMyyyyhhmmss" rotation stamp, whether
QFile::open(Append | Text) succeeds on the target, and QFile::errorString
when it fails. -/
structure WriteEnv where
  render : String → String
  rotStamp : String
  openOk : Bool
  openErr : String

/-- The log line built by `write` (qlogger.cpp:169-174).  Note the code
formats the datetime with the fixed `DATE_FORMAT` macro, NOT with the
writer's `m_datetimeFormat` field. -/
def buildLogLine (w : Writer) (env : WriteEnv) (message : String) (level : LogLevel) : String :=
  let log0 := levelToString level ++ " : " ++ message
  if w.m_saveDatetime then env.render DATE_FORMAT ++ " : " ++ log0 else log0

/-- `QLoggerWriter::write(message, level)` (qlogger.cpp:153-193).  Returns
the writer state on return (the method never assigns any field), the file
system, and the diagnostics emitted. -/
def write (w : Writer) (fs : FS) (env : WriteEnv) (message : String) (level : LogLevel) :
    Writer × FS × List Diag :=
  if w.m_level > level then (w, fs, [])
  else if w.m_filePath = "" then (w, fs, [Diag.emptyFilePath])
  else
    let fs1 := checkFileSizeLimit w fs env.rotStamp
    let log := buildLogLine w env message level
    if env.openOk then
      (w, fsWrite fs1 w.m_filePath ((fsRead fs1 w.m_filePath).getD "" ++ log ++ "\n"), [])
    else
      (w, fs1, [Diag.openFailure w.m_filePath env.openErr])

/-- The manager's map `m_loggers : QMap<QString, QSharedPointer<QLoggerWriter>>`
(qlogger.h:267): association list from channel name to a nullable shared
pointer (`Option Writer`; `none` is a null pointer). -/
abbrev RegMap := List (String × Option Writer)

def mapRead : RegMap → String → Option (Option Writer)
  | [], _ => none
  | (q, v) :: rest, k => if q = k then some v else mapRead rest k

def mapWrite : RegMap → String → Option Writer → RegMap
  | [], k, v => [(k, v)]
  | (q, u) :: rest, k, v => if q = k then (k, v) :: rest else (q, u) :: mapWrite rest k v

def mapErase : RegMap → String → RegMap
  | [], _ => []
  | (q, u) :: rest, k => if q = k then mapErase rest k else (q, u) :: mapErase rest k

/-- Qt `QMap::value(key)` (used at qlogger.cpp:244): const lookup; returns
the stored value, or a default-constructed value (a null shared pointer)
when the key is absent; it never inserts.  Returned in state-passing style
so non-mutation of the map is part of the statement, not an assumption. -/
def qmapValue (m : RegMap) (k : String) : Option Writer × RegMap :=
  match mapRead m k with
  | some v => (v, m)
  | none => (none, m)

/-- Qt `QMap::operator[](key)` (used at qlogger.cpp:222): when the key is
absent it INSERTS a default-constructed value (a null shared pointer) and
returns it; when present it returns the stored value. -/
def qmapBracket (m : RegMap) (k : String) : Option Writer × RegMap :=
  match mapRead m k with
  | some v => (v, m)
  | none => (none, m ++ [(k, none)])

/-- `QLoggerManager::add(filePath, name, level)` (qlogger.cpp:218-231):
`if (m_loggers[name])` tests the shared pointer for null — the bracket
inserts a null entry when the name is absent; the else-branch then inserts
a fresh writer under that name.  When the name is present (non-null), only
a diagnostic is emitted. -/
def add (m : RegMap) (filePath : String) (name : String) (level : LogLevel) :
    RegMap × List Diag :=
  let (v, m1) := qmapBracket m name
  match v with
  | some _ => (m1, [Diag.alreadyExists name])
  | none => (mapWrite m1 name (some (mkWriter filePath level)), [])

/-- `QLoggerManager::remove(name)` (qlogger.cpp:233-238). -/
def remove (m : RegMap) (name : String) : RegMap :=
  mapErase m name

/-- `QLoggerManager::logWriter(name)` (qlogger.cpp:240-245):
`m_loggers.value(name).data()` — a null pointer (absent key, or a stored
null) comes out as `none`. -/
def logWriter (m : RegMap) (name : String) : Option Writer × RegMap :=
  qmapValue m name

/-- `QLoggerManager::privateLog(name, message, level)` (qlogger.cpp:275-291):
look the writer up; when found, call its `write` (the writer object is
mutated in place through the pointer, so the map keeps the returned writer
state); when null, emit a diagnostic naming the channel and do nothing
else. -/
def privateLog (m : RegMap) (fs : FS) (env : WriteEnv) (name : String) (message : String)
    (level : LogLevel) : RegMap × FS × List Diag :=
  let (found, m1) := logWriter m name
  match found with
  | some w =>
    let (w2, fs2, ds) := write w fs env message level
    (mapWrite m1 name (some w2), fs2, ds)
  | none => (m1, fs, [Diag.notRegistered name])

/-- `QLoggerManager::log(name, message, level)` (qlogger.cpp:247-251):
calls `privateLog` synchronously (the QtConcurrent::run variant is
commented out in the source). -/
def managerLog (m : RegMap) (fs : FS) (env : WriteEnv) (name : String) (message : String)
    (level : LogLevel) : RegMap × FS × List Diag :=
  privateLog m fs env name message level

/-
Interleaving model of `QLoggerManager::getInstancePointer` (qlogger.cpp:204-216):

    if (!m_instance) {
        QMutex mutex;                 // a FUNCTION-LOCAL mutex
        QMutexLocker locker(&mutex);
        if (!m_instance) {
            m_instance.reset(new QLoggerManager);
        }
    }
    return m_instance.data();

The mutex is declared locally inside the call, shadowing the class's
static `QLoggerManager::mutex`, so each calling thread locks its own fresh
mutex: the lock acquisition never blocks any other thread and is modelled
as an unconditional step.  Two threads run the code concurrently; the
shared state is whether `m_instance` is set, plus a count of how many
times `new QLoggerManager` ran.
-/

/-- Program counter of one thread in `getInstancePointer`: before the first
null check; holding its (function-local) mutex before the second null
check; past the second null check and about to construct; returned. -/
inductive DCLpc where
  | start
  | locked
  | armed
  | done

/-- One step of one thread of `getInstancePointer`: first null check (then
lock the local mutex, which never blocks), second null check, then the
`reset(new ...)` that sets the instance and counts a construction. -/
def dclThreadStep (inst : Bool) (pc : DCLpc) : Bool × DCLpc × Bool :=
  match pc with
  | DCLpc.start => if inst then (inst, DCLpc.done, false) else (inst, DCLpc.locked, false)
  | DCLpc.locked => if inst then (inst, DCLpc.done, false) else (inst, DCLpc.armed, false)
  | DCLpc.armed => (true, DCLpc.done, true)
  | DCLpc.done => (inst, DCLpc.done, false)

/-- Shared state of two threads racing through `getInstancePointer`. -/
structure DCLState where
  instSet : Bool
  pc0 : DCLpc
  pc1 : DCLpc
  constructions : Nat

/-- Scheduler step: run one step of thread 0 (`false`) or thread 1
(`true`). -/
def dclStep (s : DCLState) (t : Bool) : DCLState :=
  if t then
    match dclThreadStep s.instSet s.pc1 with
    | (i, p, c) => ⟨i, s.pc0, p, s.constructions + (if c then 1 else 0)⟩
  else
    match dclThreadStep s.instSet s.pc0 with
    | (i, p, c) => ⟨i, p, s.pc1, s.constructions + (if c then 1 else 0)⟩

def dclRun (s : DCLState) : List Bool → DCLState
  | [] => s
  | t :: ts => dclRun (dclStep s t) ts

/-- Initial state of a first-time concurrent access: instance unset, both
threads at the first null check, nothing constructed yet. -/
def dclInit : DCLState :=
  ⟨false, DCLpc.start, DCLpc.start, 0⟩

/-- The file-name part before the LAST dot (used only to state the spec's
rotated-name rule, for comparison with the code's first-dot split). -/
def lastDotBaseName (s : String) : String :=
  String.mk (joinWithChar '.' ((splitOnChar '.' s.toList).dropLast))

/-- The file-name part after the LAST dot. -/
def lastDotSuffix (s : String) : String :=
  String.mk ((splitOnChar '.' s.toList).getLastD [])

/-- Modelled from the spec: the rotated file name as the spec words it —
`<basename>_<ddMMyyyyhhmmss>.<suffix>` where basename and suffix come from
splitting the original file name at its LAST extension separator.  Stated
only to compare against `rotatedFileName`, which the code computes with
Qt baseName/completeSuffix (a FIRST-dot split). -/
def rotatedFileNameLastDot (p : String) (rotStamp : String) : String :=
  lastDotBaseName (qtFileName p) ++ "_" ++ rotStamp ++ "." ++ lastDotSuffix (qtFileName p)

/-- Concrete fixture: a sink with timestamps off, no size limit, minimum
level Debug, used to exercise the level filter. -/
def wFix : Writer :=
  ⟨"a.log", 0, false, DATE_FORMAT, DebugLevel⟩

/-- Concrete fixture: a sink with timestamps on, minimum level Warn
(spec section 8's filtering example). -/
def wFix2 : Writer :=
  ⟨"w.log", 0, true, DATE_FORMAT, WarnLevel⟩

/-- Concrete fixture: a sink whose datetime format field was set to
"hh:mm" (as by setDatetimeFormat), timestamps on. -/
def w3 : Writer :=
  ⟨"app.log", 0, true, "hh:mm", DebugLevel⟩

/-- Concrete fixture: a sink on a double-extension file with size limit 3. -/
def w4 : Writer :=
  ⟨"app.tar.gz", 3, true, DATE_FORMAT, DebugLevel⟩

/-- Concrete fixture: a sink on dir/app.log with size limit 3. -/
def w4b : Writer :=
  ⟨"dir/app.log", 3, true, DATE_FORMAT, DebugLevel⟩

/-- Concrete fixture: a file system holding an over-limit dir/app.log. -/
def fs4b : FS :=
  [("dir/app.log", "hello")]

/-- Concrete fixture: a sink with an empty file path and a positive size
limit. -/
def w7 : Writer :=
  ⟨"", 3, true, DATE_FORMAT, DebugLevel⟩

/-- Concrete fixture: a nonempty file system untouched by dropped writes. -/
def fs7 : FS :=
  [("other.log", "keep")]

/-- Concrete fixture: an environment whose clock rendering wraps the format
string in brackets (so the format actually used is visible in the
output), with the file always openable. -/
def envFix : WriteEnv :=
  ⟨fun f => "[" ++ f ++ "]", "05012024134509", true, "disk full"⟩

/-- Concrete fixture: the writer registered first under channel "ch". -/
def wA : Writer :=
  mkWriter "a.log" DebugLevel

/-- Concrete fixture: a registry with channel "ch" bound to `wA`. -/
def mReg : RegMap :=
  [("ch", some wA)]

theorem fsRead_fsWrite_self (fs : FS) (p c : String) : fsRead (fsWrite fs p c) p = some c := by
  induction fs with
  | nil => simp [fsWrite, fsRead]
  | cons hd tl ih =>
    obtain ⟨q, d⟩ := hd
    by_cases h : q = p
    · simp [fsWrite, fsRead, h]
    · simp [fsWrite, fsRead, h, ih]

theorem fsRead_fsWrite_of_ne (fs : FS) (p c q : String) (h : p ≠ q) :
    fsRead (fsWrite fs p c) q = fsRead fs q := by
  induction fs with
  | nil => simp [fsWrite, fsRead, h]
  | cons hd tl ih =>
    obtain ⟨r, d⟩ := hd
    by_cases hr : r = p
    · subst hr
      simp [fsWrite, fsRead, h]
    · simp [fsWrite, fsRead, hr, ih]

theorem fsRead_fsRemove_self (fs : FS) (p : String) : fsRead (fsRemove fs p) p = none := by
  induction fs with
  | nil => simp [fsRemove, fsRead]
  | cons hd tl ih =>
    obtain ⟨q, d⟩ := hd
    by_cases h : q = p
    · simp [fsRemove, h, ih]
    · simp [fsRemove, fsRead, h, ih]

theorem write_accepted (w : Writer) (fs : FS) (env : WriteEnv) (msg : String) (level : LogLevel)
    (h1 : w.m_level ≤ level) (h2 : w.m_filePath ≠ "") (h3 : env.openOk = true) :
    write w fs env msg level =
      (w, fsWrite (checkFileSizeLimit w fs env.rotStamp) w.m_filePath
        ((fsRead (checkFileSizeLimit w fs env.rotStamp) w.m_filePath).getD ""
          ++ buildLogLine w env msg level ++ "\n"), []) := by
  have hnot : ¬ w.m_level > level := not_lt.mpr h1
  simp [write, hnot, h2, h3]

/-- C1: a write strictly below the sink's minimum level returns at once
with no file-system change, no writer change and no diagnostic; a write at
or above the minimum level (with a nonempty path and an openable file) is
accepted: the built line, newline-terminated, is appended to the file at
the sink's path. -/
theorem write_level_filter (w : Writer) (fs : FS) (env : WriteEnv) (msg : String)
    (level : LogLevel) :
    (level < w.m_level → write w fs env msg level = (w, fs, [])) ∧
    (w.m_level ≤ level → w.m_filePath ≠ "" → env.openOk = true →
      fsRead (write w fs env msg level).2.1 w.m_filePath =
        some ((fsRead (checkFileSizeLimit w fs env.rotStamp) w.m_filePath).getD ""
          ++ buildLogLine w env msg level ++ "\n")) := by
  constructor
  · intro h
    have hgt : w.m_level > level := h
    simp [write, hgt]
  · intro h1 h2 h3
    rw [write_accepted w fs env msg level h1 h2 h3]
    exact fsRead_fsWrite_self _ _ _

theorem write_level_filter_witness :
    write wFix [] envFix "m" TraceLevel = (wFix, [], []) ∧
    fsRead (write wFix [] envFix "m" DebugLevel).2.1 wFix.m_filePath =
      some ((fsRead (checkFileSizeLimit wFix [] envFix.rotStamp) wFix.m_filePath).getD ""
        ++ buildLogLine wFix envFix "m" DebugLevel ++ "\n") :=
  ⟨(write_level_filter wFix [] envFix "m" TraceLevel).1 (by decide),
   (write_level_filter wFix [] envFix "m" DebugLevel).2 (by decide) (by decide) rfl⟩

/-- C2: an accepted write appends exactly one newline-terminated line whose
body is the level name and the message joined by " : ", with the rendered
timestamp and " : " prefixed iff the datetime flag is set; the level
names are the six canonical lowercase strings, and any out-of-range level
renders as "INVALID". -/
theorem write_line_format (w : Writer) (fs : FS) (env : WriteEnv) (msg : String)
    (level : LogLevel) (h1 : w.m_level ≤ level) (h2 : w.m_filePath ≠ "")
    (h3 : env.openOk = true) :
    (fsRead (write w fs env msg level).2.1 w.m_filePath =
      some ((fsRead (checkFileSizeLimit w fs env.rotStamp) w.m_filePath).getD ""
        ++ buildLogLine w env msg level ++ "\n")) ∧
    (buildLogLine w env msg level =
      if w.m_saveDatetime then
        env.render DATE_FORMAT ++ " : " ++ (levelToString level ++ " : " ++ msg)
      else levelToString level ++ " : " ++ msg) ∧
    levelToString TraceLevel = "trace" ∧
    levelToString DebugLevel = "debug" ∧
    levelToString InfoLevel = "info" ∧
    levelToString WarnLevel = "warning" ∧
    levelToString ErrorLevel = "error" ∧
    levelToString FatalLevel = "fatal" ∧
    (∀ lv : LogLevel, lv < 0 ∨ 5 < lv → levelToString lv = "INVALID") := by
  refine ⟨?_, ?_, rfl, rfl, rfl, rfl, rfl, rfl, ?_⟩
  · rw [write_accepted w fs env msg level h1 h2 h3]
    exact fsRead_fsWrite_self _ _ _
  · cases hb : w.m_saveDatetime <;> simp [buildLogLine, hb]
  · intro lv h
    have e0 : lv ≠ 0 := by rcases h with h | h <;> (intro he; rw [he] at h; norm_num at h)
    have e1 : lv ≠ 1 := by rcases h with h | h <;> (intro he; rw [he] at h; norm_num at h)
    have e2 : lv ≠ 2 := by rcases h with h | h <;> (intro he; rw [he] at h; norm_num at h)
    have e3 : lv ≠ 3 := by rcases h with h | h <;> (intro he; rw [he] at h; norm_num at h)
    have e4 : lv ≠ 4 := by rcases h with h | h <;> (intro he; rw [he] at h; norm_num at h)
    have e5 : lv ≠ 5 := by rcases h with h | h <;> (intro he; rw [he] at h; norm_num at h)
    simp [levelToString, e0, e1, e2, e3, e4, e5]

theorem write_line_format_witness :
    fsRead (write wFix2 [] envFix "y" ErrorLevel).2.1 wFix2.m_filePath =
      some ((fsRead (checkFileSizeLimit wFix2 [] envFix.rotStamp) wFix2.m_filePath).getD ""
        ++ buildLogLine wFix2 envFix "y" ErrorLevel ++ "\n") ∧
    levelToString 99 = "INVALID" :=
  ⟨(write_line_format wFix2 [] envFix "y" ErrorLevel (by decide) (by decide) rfl).1,
   (write_line_format wFix2 [] envFix "y" ErrorLevel (by decide) (by decide)
      rfl).2.2.2.2.2.2.2.2 99 (by decide)⟩

/-- C7: with the level at or above the minimum but an empty file path,
write emits the empty-path diagnostic and returns with the file system
(so no rotation and no append) and the writer unchanged. -/
theorem write_empty_path_drops (w : Writer) (fs : FS) (env : WriteEnv) (msg : String)
    (lv : LogLevel) (hlv : w.m_level ≤ lv) (hp : w.m_filePath = "") :
    write w fs env msg lv = (w, fs, [Diag.emptyFilePath]) := by
  have hnot : ¬ w.m_level > lv := not_lt.mpr hlv
  simp [write, hnot, hp]

theorem write_empty_path_drops_witness :
    write w7 fs7 envFix "m" InfoLevel = (w7, fs7, [Diag.emptyFilePath]) :=
  write_empty_path_drops w7 fs7 envFix "m" InfoLevel (by decide) rfl

theorem write_fst_eq (w : Writer) (fs : FS) (env : WriteEnv) (msg : String) (lv : LogLevel) :
    (write w fs env msg lv).1 = w := by
  unfold write
  split
  · rfl
  · split
    · rfl
    · split
      · rfl
      · rfl

/-- C10: on every branch of write — filtered out, empty path, open failure
and successful append — all five configuration fields of the sink are the
same when the call returns. -/
theorem write_preserves_config (w : Writer) (fs : FS) (env : WriteEnv) (msg : String)
    (lv : LogLevel) :
    ((write w fs env msg lv).1).m_filePath = w.m_filePath ∧
    ((write w fs env msg lv).1).m_level = w.m_level ∧
    ((write w fs env msg lv).1).m_fileSizeLimit = w.m_fileSizeLimit ∧
    ((write w fs env msg lv).1).m_saveDatetime = w.m_saveDatetime ∧
    ((write w fs env msg lv).1).m_datetimeFormat = w.m_datetimeFormat := by
  rw [write_fst_eq]
  exact ⟨rfl, rfl, rfl, rfl, rfl⟩

/-- C3: an accepted write with the datetime flag on renders the timestamp
with the fixed DATE_FORMAT pattern, not with the sink's datetimeFormat
field: the sink `w3` carries format "hh:mm", its environment renders any
format string f as the bracketed "[f]", and the line that lands in the
file carries "[yyyy-MM-dd-hh-mm-ss]" rather than the "[hh:mm]" the
configured format would have produced. -/
theorem write_uses_fixed_datetime_format :
    w3.m_datetimeFormat = "hh:mm" ∧
    fsRead (write w3 [] envFix "msg" InfoLevel).2.1 "app.log" =
      some ("[yyyy-MM-dd-hh-mm-ss] : info : msg" ++ "\n") ∧
    envFix.render w3.m_datetimeFormat = "[hh:mm]" ∧
    fsRead (write w3 [] envFix "msg" InfoLevel).2.1 "app.log" ≠
      some ("[hh:mm] : info : msg" ++ "\n") :=
  ⟨rfl, by decide, rfl, by decide⟩

/-- Counterexample to C4 as stated: on the file name "app.tar.gz", an
over-limit rotation renames the file to "app_05012024134509.tar.gz" — the
name obtained by splitting at the FIRST dot (Qt baseName/completeSuffix)
— while the claim's last-separator split names "app.tar_05012024134509.gz",
a path the resulting file system does not contain. -/
theorem rotation_lastdot_counterexample :
    checkFileSizeLimit w4 [("app.tar.gz", "xxxxx")] "05012024134509" =
      [("app_05012024134509.tar.gz", "xxxxx")] ∧
    rotatedFileNameLastDot "app.tar.gz" "05012024134509" = "app.tar_05012024134509.gz" ∧
    fsRead (checkFileSizeLimit w4 [("app.tar.gz", "xxxxx")] "05012024134509")
      (rotatedFileNameLastDot "app.tar.gz" "05012024134509") = none :=
  ⟨by decide, by decide, by decide⟩

/-- C4 (amended): the rotation check is a no-op when the size limit is at
most 0 and when the file at the path is missing; when the limit is
positive, the file exists and its size has reached the limit (and the
rotated name is free), the file's content moves to
`<basename>_<timestamp>.<suffix>` in the same directory — basename and
suffix splitting the file name at its FIRST extension separator — and the
original path no longer exists. -/
theorem checkFileSizeLimit_behavior (w : Writer) (fs : FS) (ts : String) :
    (w.m_fileSizeLimit ≤ 0 → checkFileSizeLimit w fs ts = fs) ∧
    (fsRead fs w.m_filePath = none → checkFileSizeLimit w fs ts = fs) ∧
    (∀ c : String, fsRead fs w.m_filePath = some c →
      (c.length : Int) ≥ w.m_fileSizeLimit → 0 < w.m_fileSizeLimit →
      fsRead fs (inSameDir w.m_filePath (rotatedFileName w.m_filePath ts)) = none →
      fsRead (checkFileSizeLimit w fs ts)
          (inSameDir w.m_filePath (rotatedFileName w.m_filePath ts)) = some c ∧
      fsRead (checkFileSizeLimit w fs ts) w.m_filePath = none) := by
  refine ⟨?_, ?_, ?_⟩
  · intro h
    simp [checkFileSizeLimit, h]
  · intro h
    by_cases hl : w.m_fileSizeLimit ≤ 0
    · simp [checkFileSizeLimit, hl]
    · have hs : fsSize fs w.m_filePath = 0 := by simp [fsSize, h]
      unfold checkFileSizeLimit
      rw [if_neg hl, if_neg (by rw [hs]; exact fun hge => hl hge)]
  · intro c hc hlen hpos hdst
    have hne : w.m_filePath ≠ inSameDir w.m_filePath (rotatedFileName w.m_filePath ts) := by
      intro he
      rw [← he] at hdst
      rw [hc] at hdst
      exact Option.noConfusion hdst
    have hnl : ¬ w.m_fileSizeLimit ≤ 0 := not_le.mpr hpos
    have hs : fsSize fs w.m_filePath = (c.length : Int) := by simp [fsSize, hc]
    unfold checkFileSizeLimit
    rw [if_neg hnl, if_pos (by rw [hs]; exact hlen)]
    unfold fsRename
    rw [hc, hdst]
    constructor
    · exact fsRead_fsWrite_self _ _ _
    · rw [fsRead_fsWrite_of_ne _ _ _ _ (Ne.symm hne)]
      exact fsRead_fsRemove_self _ _

theorem checkFileSizeLimit_behavior_witness :
    fsRead (checkFileSizeLimit w4b fs4b "05012024134509")
        (inSameDir w4b.m_filePath (rotatedFileName w4b.m_filePath "05012024134509")) =
      some "hello" ∧
    fsRead (checkFileSizeLimit w4b fs4b "05012024134509") w4b.m_filePath = none :=
  (checkFileSizeLimit_behavior w4b fs4b "05012024134509").2.2 "hello"
    (by decide) (by decide) (by decide) (by decide)

/-- C5: registering a name that is already bound (to a non-null sink)
leaves the whole registry map untouched, emits only the already-exists
diagnostic, and a subsequent lookup — also after the attempted
re-registration — still returns the originally registered sink with all
its fields. -/
theorem add_existing_keeps_sink (m : RegMap) (p name : String) (lv : LogLevel) (w : Writer)
    (h : mapRead m name = some (some w)) :
    add m p name lv = (m, [Diag.alreadyExists name]) ∧
    (logWriter m name).1 = some w ∧
    (logWriter (add m p name lv).1 name).1 = some w := by
  have h1 : add m p name lv = (m, [Diag.alreadyExists name]) := by
    simp [add, qmapBracket, h]
  have h2 : (logWriter m name).1 = some w := by
    simp [logWriter, qmapValue, h]
  exact ⟨h1, h2, by rw [h1]; exact h2⟩

theorem add_existing_keeps_sink_witness :
    add mReg "b.log" "ch" DebugLevel = (mReg, [Diag.alreadyExists "ch"]) ∧
    (logWriter mReg "ch").1 = some wA ∧
    (logWriter (add mReg "b.log" "ch" DebugLevel).1 "ch").1 = some wA :=
  add_existing_keeps_sink mReg "b.log" "ch" DebugLevel wA (by decide)

/-- C6: logging to a name bound in no registry entry leaves the registry
and the file system exactly as they were and emits exactly one
diagnostic, carrying the missing channel's name — for every message and
level. -/
theorem log_unknown_channel_noop (m : RegMap) (fs : FS) (env : WriteEnv) (name msg : String)
    (lv : LogLevel) (h : mapRead m name = none) :
    managerLog m fs env name msg lv = (m, fs, [Diag.notRegistered name]) := by
  simp [managerLog, privateLog, logWriter, qmapValue, h]

theorem log_unknown_channel_noop_witness :
    managerLog mReg fs7 envFix "ghost" "msg" InfoLevel =
      (mReg, fs7, [Diag.notRegistered "ghost"]) :=
  log_unknown_channel_noop mReg fs7 envFix "ghost" "msg" InfoLevel (by decide)

/-- C8: the double-checked lazy initialization in getInstancePointer is NOT
race-free: the guarding mutex is a function-local variable, so it never
excludes another thread; under the interleaving in which both threads
pass the first null check and then both pass the second null check before
either constructs, both threads execute `reset(new QLoggerManager)` — two
constructions from one initial state. -/
theorem getInstancePointer_double_construction :
    (dclRun dclInit [false, true, false, true, false, true]).constructions = 2 :=
  rfl

/-- C9: looking a channel up returns the registry map unchanged; an absent
name comes back as a null (none) result without creating an entry, and a
name bound to a sink comes back as exactly that sink. -/
theorem logWriter_preserves_map (m : RegMap) (name : String) :
    (logWriter m name).2 = m ∧
    (mapRead m name = none → (logWriter m name).1 = none) ∧
    (∀ w : Writer, mapRead m name = some (some w) → (logWriter m name).1 = some w) := by
  refine ⟨?_, ?_, ?_⟩
  · unfold logWriter qmapValue
    cases mapRead m name <;> rfl
  · intro h
    simp [logWriter, qmapValue, h]
  · intro w h
    simp [logWriter, qmapValue, h]

theorem logWriter_preserves_map_witness :
    (logWriter mReg "ghost").2 = mReg ∧
    (logWriter mReg "ghost").1 = none ∧
    (logWriter mReg "ch").1 = some wA :=
  ⟨(logWriter_preserves_map mReg "ghost").1,
   (logWriter_preserves_map mReg "ghost").2.1 (by decide),
   (logWriter_preserves_map mReg "ch").2.2 wA (by decide)⟩

end QLogger
